import Mathlib

/-!
Shallow embedding of the `fzr` content-storage core
(`src/fzr/src/data/ipfs_ops.rs` and `src/fzr/src/data/meta.rs`).

Files are modelled by their byte contents (`List Nat`, each entry a byte).
The external collaborators — the `infer`/`image` crates' sniffing and
decoding, and the addressable-store client's `add`/`get` — are parameters,
as the spec treats them as opaque collaborators.  Panics of the Rust code
(`unwrap`, out-of-range slice) are made explicit as a `panicked` outcome,
distinct from the `Err` channel of the Rust `Result`.
-/

namespace Fzr

/-- Modelled from the spec (§3) and the constructor uses in
`ipfs_ops.rs`'s tests: `crate::data::content::ImageContent` — the raw
encoded image bytes. -/
structure ImageContent where
  buffer : List Nat
deriving DecidableEq, Repr

/-- Modelled from the spec (§3) and `ipfs_ops.rs`: `ImageMetadata`. -/
structure ImageMetadata where
  size_bytes : Nat
  mime_type : String
  width_px : Nat
  height_px : Nat
deriving DecidableEq, Repr

/-- Modelled from the spec (§3) and `ipfs_ops.rs`: `TextContent`, the
UTF-8 decoded string of the full file contents. -/
structure TextContent where
  string : String
deriving DecidableEq, Repr

/-- Modelled from the spec (§3) and `ipfs_ops.rs`: `TextMetadata`. -/
structure TextMetadata where
  size_bytes : Nat
deriving DecidableEq, Repr

/-- Modelled from the spec (§3) and `ipfs_ops.rs`: the tagged union
`ContentItem`. -/
inductive ContentItem where
  | Image : ImageContent → ImageMetadata → ContentItem
  | Text : TextContent → TextMetadata → ContentItem
deriving DecidableEq, Repr

/-- Modelled from the spec (§3) and `ipfs_ops.rs`: `ContentItemBlock`,
the unit handed to the store client. -/
structure ContentItemBlock where
  content : ContentItem
  size_bytes : Nat
deriving DecidableEq, Repr

/-- The per-variant `size_bytes` field of a `ContentItem`. -/
def ContentItem.metaSize : ContentItem → Nat
  | .Image _ m => m.size_bytes
  | .Text _ m => m.size_bytes

/-- Reasons the Rust code can panic (`unwrap` / out-of-range slice). -/
inductive PanicReason where
  | sliceRange
  | imageDecode
  | mimeSniff
  | cidParse
deriving DecidableEq, Repr

/-- A continuation byte `0x80..=0xBF`. -/
def isCont (b : Nat) : Bool :=
  decide (0x80 ≤ b ∧ b ≤ 0xBF)

/-- Allowed second byte of a three-byte sequence with lead `b`
(per the UTF-8 validation used by Rust's `String::from_utf8`:
no overlong encodings, no surrogates). -/
def isCont3 (b b2 : Nat) : Bool :=
  if b = 0xE0 then decide (0xA0 ≤ b2 ∧ b2 ≤ 0xBF)
  else if b = 0xED then decide (0x80 ≤ b2 ∧ b2 ≤ 0x9F)
  else isCont b2

/-- Allowed second byte of a four-byte sequence with lead `b`
(no overlong encodings, nothing above `U+10FFFF`). -/
def isCont4 (b b2 : Nat) : Bool :=
  if b = 0xF0 then decide (0x90 ≤ b2 ∧ b2 ≤ 0xBF)
  else if b = 0xF4 then decide (0x80 ≤ b2 ∧ b2 ≤ 0x8F)
  else isCont b2

/-- UTF-8 decoding of a byte list into characters, mirroring the
validation performed by Rust's `String::from_utf8`: `none` exactly when
the bytes are not valid UTF-8. -/
def utf8Chars : List Nat → Option (List Char)
  | [] => some []
  | b :: rest =>
    if b ≤ 0x7F then
      (utf8Chars rest).map (Char.ofNat b :: ·)
    else if b < 0xC2 then none
    else if b ≤ 0xDF then
      match rest with
      | [] => none
      | b2 :: rest2 =>
        if isCont b2 then
          (utf8Chars rest2).map (Char.ofNat ((b - 0xC0) * 64 + (b2 - 0x80)) :: ·)
        else none
    else if b ≤ 0xEF then
      match rest with
      | b2 :: b3 :: rest3 =>
        if isCont3 b b2 && isCont b3 then
          (utf8Chars rest3).map
            (Char.ofNat ((b - 0xE0) * 4096 + (b2 - 0x80) * 64 + (b3 - 0x80)) :: ·)
        else none
      | _ => none
    else if b ≤ 0xF4 then
      match rest with
      | b2 :: b3 :: b4 :: rest4 =>
        if isCont4 b b2 && isCont b3 && isCont b4 then
          (utf8Chars rest4).map
            (Char.ofNat
              ((b - 0xF0) * 262144 + (b2 - 0x80) * 4096 + (b3 - 0x80) * 64 +
                (b4 - 0x80)) :: ·)
        else none
      | _ => none
    else none

/-- `String::from_utf8` on a byte buffer: `some` of the decoded string,
or `none` when the buffer is not valid UTF-8. -/
def utf8Decode (bs : List Nat) : Option String :=
  (utf8Chars bs).map fun cs => ⟨cs⟩

/-- The external sniffing/decoding collaborators used by `store_file`:
`infer::is_image` and `infer::get(..).mime_type()` (applied to the first
four buffer bytes) and `image::image_dimensions` (applied to the file
contents; `none` models a decoder failure). -/
structure ImageLib where
  isImage : List Nat → Bool
  dims : List Nat → Option (Nat × Nat)
  mime : List Nat → Option String

/-- Result of the classification / block-construction phase of
`store_file` (everything before the store-client `add`). -/
inductive ClassifyResult where
  | block : ContentItemBlock → ClassifyResult
  | skip : ClassifyResult
  | panicked : PanicReason → ClassifyResult
deriving DecidableEq, Repr

/-- The classification and block-construction logic of `store_file`
(`ipfs_ops.rs` lines 21–60), as a function of the file's byte contents.
`size_bytes` is the file length from `fs::metadata`, which equals
`buffer.length` for the file just read.  The slice `&buffer[0..4]`
panics when the buffer is shorter than four bytes; the `unwrap`s on
`image::image_dimensions` and `infer::get` panic on failure. -/
def classify (lib : ImageLib) (buffer : List Nat) : ClassifyResult :=
  let size_bytes := buffer.length
  if buffer.length < 4 then .panicked .sliceRange
  else if lib.isImage (buffer.take 4) then
    match lib.dims buffer with
    | none => .panicked .imageDecode
    | some (width_px, height_px) =>
      match lib.mime (buffer.take 4) with
      | none => .panicked .mimeSniff
      | some mime_type =>
        .block
          { content := .Image { buffer }
              { size_bytes, mime_type, width_px, height_px },
            size_bytes }
  else
    match utf8Decode buffer with
    | some string =>
      .block { content := .Text { string } { size_bytes }, size_bytes }
    | none => .skip

/-- Outcome of `store_file`: the Rust `Result<Option<Cid>, Arc<Error>>`
extended with an explicit `panicked` outcome for the `unwrap`s. -/
inductive StoreOutcome (ε κ : Type) where
  | ok : Option κ → StoreOutcome ε κ
  | err : ε → StoreOutcome ε κ
  | panicked : PanicReason → StoreOutcome ε κ
deriving DecidableEq, Repr

/-- Outcome of `load_file`: the Rust `Result<ContentItem, Arc<Error>>`
extended with an explicit `panicked` outcome for the `unwrap`. -/
inductive LoadOutcome (ε : Type) where
  | ok : ContentItem → LoadOutcome ε
  | err : ε → LoadOutcome ε
  | panicked : PanicReason → LoadOutcome ε
deriving DecidableEq, Repr

/-- `store_file` (`ipfs_ops.rs` lines 15–82), as a function of the
file's byte contents and of the store client's `add`. -/
def store_file {ε κ : Type} (lib : ImageLib)
    (add : ContentItemBlock → Except ε κ) (buffer : List Nat) :
    StoreOutcome ε κ :=
  match classify lib buffer with
  | .panicked r => .panicked r
  | .skip => .ok none
  | .block b =>
    match add b with
    | .ok cid => .ok (some cid)
    | .error e => .err e

/-- `load_file` (`ipfs_ops.rs` lines 84–101): `Cid::from_str` is the
caller-supplied `parseCid` (its `unwrap` panics on `none`), then the
store client's `get` fetches the block and its `content` is returned. -/
def load_file {ε κ : Type} (parseCid : String → Option κ)
    (get : κ → Except ε ContentItemBlock) (cid_string : String) :
    LoadOutcome ε :=
  match parseCid cid_string with
  | none => .panicked .cidParse
  | some cid =>
    match get cid with
    | .ok data => .ok data.content
    | .error e => .err e

/-- `store_file` against a stateful store client: `addS` consumes and
returns client state, so that content-addressing is a hypothesis rather
than baked in.  Used for the identifier-stability property. -/
def store_fileS {ε κ σ : Type} (lib : ImageLib)
    (addS : σ → ContentItemBlock → Except ε κ × σ) (buffer : List Nat)
    (s : σ) : StoreOutcome ε κ × σ :=
  match classify lib buffer with
  | .panicked r => (.panicked r, s)
  | .skip => (.ok none, s)
  | .block b =>
    (match (addS s b).1 with
     | .ok cid => .ok (some cid)
     | .error e => .err e,
     (addS s b).2)

/-- `meta.rs`: `MetadataRelationship`. -/
inductive MetadataRelationship where
  | Is
  | Has
deriving DecidableEq, Repr

/-- `meta.rs`: `MetadataCategory`. -/
inductive MetadataCategory where
  | Originator
  | Attribute
  | Relation : MetadataRelationship → MetadataCategory
deriving DecidableEq, Repr

/-- `meta.rs`: `MetadataItem`, a self-referential node with an optional
parent, a string value and a category.  (The source file writes `enum`
with struct-style fields; the field list and the spec's §3 describe a
record, embedded here as a single-constructor inductive since the node
type is recursive.) -/
inductive MetadataItem where
  | mk : Option MetadataItem → String → MetadataCategory → MetadataItem

/-- The `parent` field of a `MetadataItem`. -/
def MetadataItem.parent : MetadataItem → Option MetadataItem
  | .mk p _ _ => p

/-- The `value` field of a `MetadataItem`. -/
def MetadataItem.value : MetadataItem → String
  | .mk _ v _ => v

/-- The `category` field of a `MetadataItem`. -/
def MetadataItem.category : MetadataItem → MetadataCategory
  | .mk _ _ c => c

/-- The text path of `classify` (`ipfs_ops.rs` lines 55–79) in
isolation: decode as UTF-8 into a text block, or skip. -/
def textClassify (buffer : List Nat) : ClassifyResult :=
  match utf8Decode buffer with
  | some string =>
    .block { content := .Text { string } { size_bytes := buffer.length },
             size_bytes := buffer.length }
  | none => .skip

/-- A concrete sniffing/decoding environment that recognizes no image
signature at all (how `infer` behaves on, e.g., plain ASCII text). -/
def textLib : ImageLib where
  isImage := fun _ => false
  dims := fun _ => none
  mime := fun _ => none

/-- A concrete environment for a corrupt image: the JPEG signature
`FF D8 FF E0` is sniffed as an image, but the decoder extracts no
dimensions (as `image::image_dimensions` behaves on a truncated JPEG). -/
def jpegLib : ImageLib where
  isImage := fun bs => decide (bs = [0xFF, 0xD8, 0xFF, 0xE0])
  dims := fun _ => none
  mime := fun bs =>
    if bs = [0xFF, 0xD8, 0xFF, 0xE0] then some "image/jpeg" else none

/-- A concrete environment for a well-formed one-pixel GIF: the `GIF8`
signature is sniffed as an image and the decoder yields 1×1. -/
def gifLib : ImageLib where
  isImage := fun bs => decide (bs = [0x47, 0x49, 0x46, 0x38])
  dims := fun _ => some (1, 1)
  mime := fun bs =>
    if bs = [0x47, 0x49, 0x46, 0x38] then some "image/gif" else none

/-- The bytes of the test file containing `"howdy"`. -/
def howdyBytes : List Nat := [104, 111, 119, 100, 121]

/-- The block `store_file` builds from `howdyBytes`. -/
def howdyBlock : ContentItemBlock :=
  { content := .Text { string := "howdy" } { size_bytes := 5 },
    size_bytes := 5 }

/-- The first six bytes of the smallest-GIF test file (`GIF89a`). -/
def gifBytes : List Nat := [0x47, 0x49, 0x46, 0x38, 0x39, 0x61]

/-- A four-byte buffer carrying only the JPEG signature — image-signed
but undecodable. -/
def corruptJpeg : List Nat := [0xFF, 0xD8, 0xFF, 0xE0]

/-- A stateful but content-addressed store client: the identifier is the
block itself, the state a call counter. -/
def counterAdd : Nat → ContentItemBlock → Except Unit ContentItemBlock × Nat :=
  fun t b => (.ok b, t + 1)

/-- Inversion for `classify`: a produced block is either the image block
(signature sniffed, dimensions and MIME type extracted) or the text
block (not image-sniffed, buffer valid UTF-8), each carrying the buffer
length as its sizes. -/
lemma classify_block_cases (lib : ImageLib) (buffer : List Nat)
    (blk : ContentItemBlock) (hcl : classify lib buffer = .block blk) :
    (∃ w h mt, lib.isImage (buffer.take 4) = true ∧
      lib.dims buffer = some (w, h) ∧ lib.mime (buffer.take 4) = some mt ∧
      blk = { content := .Image { buffer }
                { size_bytes := buffer.length, mime_type := mt,
                  width_px := w, height_px := h },
              size_bytes := buffer.length }) ∨
    (∃ s, lib.isImage (buffer.take 4) = false ∧ utf8Decode buffer = some s ∧
      blk = { content := .Text { string := s } { size_bytes := buffer.length },
              size_bytes := buffer.length }) := by
  by_cases h4 : buffer.length < 4
  · simp [classify, h4] at hcl
  · by_cases him : lib.isImage (buffer.take 4)
    · cases hd : lib.dims buffer with
      | none => simp [classify, h4, him, hd] at hcl
      | some wh =>
        obtain ⟨w, h⟩ := wh
        cases hm : lib.mime (buffer.take 4) with
        | none => simp [classify, h4, him, hd, hm] at hcl
        | some mt =>
          simp [classify, h4, him, hd, hm] at hcl
          left
          exact ⟨w, h, mt, by simpa using him, rfl, rfl, by simp [← hcl]⟩
    · cases hs : utf8Decode buffer with
      | none => simp [classify, h4, him, hs] at hcl
      | some s =>
        simp [classify, h4, him, hs] at hcl
        right
        exact ⟨s, by simpa using him, rfl, by simp [← hcl]⟩

/-- C10: a file shorter than four bytes makes the unconditional slice of
the first four buffer bytes (`&buffer[0..4]`) out of range, so
`store_file` panics rather than returning a skip or error result; the
sniffing step is total only when the file has at least four bytes. -/
theorem short_buffer_panics {ε κ : Type} (lib : ImageLib)
    (add : ContentItemBlock → Except ε κ) (buffer : List Nat)
    (hshort : buffer.length < 4) :
    store_file lib add buffer = .panicked .sliceRange := by
  simp [store_file, classify, hshort]

/-- C10 witness: the two-byte file `"hi"` panics at the slice. -/
theorem short_buffer_panics_witness :
    store_file (ε := Unit) (κ := Unit) textLib (fun _ => Except.ok ())
        [104, 105] = .panicked .sliceRange :=
  short_buffer_panics textLib (fun _ => Except.ok ()) [104, 105] (by decide)

/-- C2: a buffer (of at least four bytes) whose first four bytes are not
sniffed as an image and whose contents are not valid UTF-8 makes
`store_file` return the success value `Ok(None)` — nothing stored, no
error raised. -/
theorem skip_on_undecodable_binary {ε κ : Type} (lib : ImageLib)
    (add : ContentItemBlock → Except ε κ) (buffer : List Nat)
    (hlen : 4 ≤ buffer.length)
    (him : lib.isImage (buffer.take 4) = false)
    (hutf : utf8Decode buffer = none) :
    store_file lib add buffer = .ok none := by
  have h4 : ¬ buffer.length < 4 := by omega
  simp [store_file, classify, h4, him, hutf]

/-- C2 witness: four `0xFF` bytes are neither image-signed (under a
sniffer recognizing no signature) nor valid UTF-8, and are skipped. -/
theorem skip_on_undecodable_binary_witness :
    store_file (ε := Unit) (κ := Unit) textLib (fun _ => Except.ok ())
        [255, 255, 255, 255] = .ok none :=
  skip_on_undecodable_binary textLib (fun _ => Except.ok ())
    [255, 255, 255, 255] (by decide) (by decide) (by decide)

/-- C3 counterexample: on the four JPEG-signature bytes — sniffed as an
image, but with no extractable dimensions — `store_file` panics (the
`unwrap` on `image::image_dimensions` aborts); the outcome is not an
error result, so the fatality is not propagated to the caller the way a
store-client error is (with `ε := Unit`, `.err ()` is the only error
result). -/
theorem corrupt_image_not_error_result :
    store_file (ε := Unit) (κ := Unit) jpegLib (fun _ => Except.ok ())
        corruptJpeg = .panicked .imageDecode ∧
      store_file (ε := Unit) (κ := Unit) jpegLib (fun _ => Except.ok ())
        corruptJpeg ≠ .err () := by decide

/-- C3 amended: on a buffer sniffed as an image whose dimensions the
decoder cannot extract, `store_file` fails fatally by panicking — it
neither falls back to the text path, nor returns the skip outcome, nor
an error result. -/
theorem corrupt_image_panics {ε κ : Type} (lib : ImageLib)
    (add : ContentItemBlock → Except ε κ) (buffer : List Nat)
    (hlen : 4 ≤ buffer.length)
    (him : lib.isImage (buffer.take 4) = true)
    (hdims : lib.dims buffer = none) :
    store_file lib add buffer = .panicked .imageDecode := by
  have h4 : ¬ buffer.length < 4 := by omega
  simp [store_file, classify, h4, him, hdims]

/-- C3 amended witness: the four JPEG-signature bytes under the corrupt
image environment. -/
theorem corrupt_image_panics_witness :
    store_file (ε := Unit) (κ := Unit) jpegLib (fun _ => Except.ok ())
        corruptJpeg = .panicked .imageDecode :=
  corrupt_image_panics jpegLib (fun _ => Except.ok ()) corruptJpeg
    (by decide) (by decide) rfl

/-- C4: an identifier string that does not parse as a store identifier
makes `load_file` fail with the fatal input panic of the `unwrap` on
`Cid::from_str` — an outcome distinct from a store-client error — and
the result does not depend on the store client's `get`, which is never
consulted. -/
theorem malformed_cid_fatal {ε κ : Type} (parseCid : String → Option κ)
    (get get' : κ → Except ε ContentItemBlock) (s : String)
    (hbad : parseCid s = none) :
    load_file parseCid get s = .panicked .cidParse ∧
      load_file parseCid get s = load_file parseCid get' s := by
  simp [load_file, hbad]

/-- C4 witness: the string `"not-a-cid"` under a parser accepting
nothing, against two different store clients. -/
theorem malformed_cid_fatal_witness :
    load_file (ε := Unit) (κ := Unit) (fun _ => none)
        (fun _ => Except.ok howdyBlock) "not-a-cid" = .panicked .cidParse ∧
      load_file (ε := Unit) (κ := Unit) (fun _ => none)
          (fun _ => Except.ok howdyBlock) "not-a-cid"
        = load_file (κ := Unit) (fun _ => none)
            (fun _ => Except.error ()) "not-a-cid" :=
  malformed_cid_fatal (fun _ => none) (fun _ => Except.ok howdyBlock)
    (fun _ => Except.error ()) "not-a-cid" rfl

/-- C5: every block `store_file` constructs carries the byte length of
the input buffer as its top-level `size_bytes`, and the same value as
the per-variant metadata `size_bytes`. -/
theorem block_size_bytes_eq_buffer_len (lib : ImageLib)
    (buffer : List Nat) (blk : ContentItemBlock)
    (hcl : classify lib buffer = .block blk) :
    blk.size_bytes = buffer.length ∧
      blk.content.metaSize = buffer.length := by
  rcases classify_block_cases lib buffer blk hcl with
    ⟨w, h, mt, _, _, _, hb⟩ | ⟨s, _, _, hb⟩ <;>
    subst hb <;> exact ⟨rfl, rfl⟩

/-- C5 witness: the `"howdy"` file yields a block with both sizes 5. -/
theorem block_size_bytes_eq_buffer_len_witness :
    howdyBlock.size_bytes = howdyBytes.length ∧
      howdyBlock.content.metaSize = howdyBytes.length :=
  block_size_bytes_eq_buffer_len textLib howdyBytes howdyBlock (by decide)

/-- C6 counterexample: the four JPEG-signature bytes are image-sniffed
but undecodable; classification does not fall through to the text path
(it panics), refuting the claim's "in every other case classification
falls through to the text path". -/
theorem image_sniffed_undecodable_not_text_path :
    classify jpegLib corruptJpeg = .panicked .imageDecode ∧
      classify jpegLib corruptJpeg ≠ textClassify corruptJpeg := by decide

/-- C6 amended: an `Image` variant is produced only when the first four
bytes are sniffed as an image AND the decoder extracts the dimensions
recorded in its metadata; and whenever the (at least four bytes long)
buffer is not image-sniffed, classification falls through to the text
path.  (Image-sniffed but undecodable buffers instead panic, and
buffers shorter than four bytes panic at the slice.) -/
theorem image_variant_conditions (lib : ImageLib) (buffer : List Nat) :
    (∀ blk ic im, classify lib buffer = .block blk →
      blk.content = .Image ic im →
      lib.isImage (buffer.take 4) = true ∧
        lib.dims buffer = some (im.width_px, im.height_px)) ∧
    (4 ≤ buffer.length → lib.isImage (buffer.take 4) = false →
      classify lib buffer = textClassify buffer) := by
  constructor
  · intro blk ic im hcl him
    rcases classify_block_cases lib buffer blk hcl with
      ⟨w, h, mt, h1, h2, _, hb⟩ | ⟨s, _, _, hb⟩
    · subst hb
      simp only [ContentItem.Image.injEq] at him
      obtain ⟨_, him2⟩ := him
      subst him2
      exact ⟨h1, h2⟩
    · subst hb
      simp at him
  · intro hlen him
    have h4 : ¬ buffer.length < 4 := by omega
    cases hs : utf8Decode buffer with
    | none => simp [classify, textClassify, h4, him, hs]
    | some s => simp [classify, textClassify, h4, him, hs]

/-- C6 amended witness: the recognized one-pixel GIF produces the image
variant with the decoder's dimensions, and the non-image-signed
`"howdy"` file takes the text path. -/
theorem image_variant_conditions_witness :
    (gifLib.isImage (gifBytes.take 4) = true ∧
      gifLib.dims gifBytes = some (1, 1)) ∧
    classify textLib howdyBytes = textClassify howdyBytes :=
  ⟨(image_variant_conditions gifLib gifBytes).1
      { content := .Image { buffer := gifBytes }
          { size_bytes := 6, mime_type := "image/gif",
            width_px := 1, height_px := 1 },
        size_bytes := 6 }
      { buffer := gifBytes }
      { size_bytes := 6, mime_type := "image/gif",
        width_px := 1, height_px := 1 }
      (by decide) rfl,
   (image_variant_conditions textLib howdyBytes).2 (by decide) rfl⟩

/-- C7: a buffer (of at least four bytes) that is not image-signed and
is valid UTF-8 is stored as a `Text` block whose string is the UTF-8
decoding of the full buffer and whose `size_bytes` is the buffer's byte
count; storing succeeds with the client's identifier and loading that
identifier yields the same `Text` item. -/
theorem text_block_construction {ε κ : Type} (lib : ImageLib)
    (add : ContentItemBlock → Except ε κ) (parseCid : String → Option κ)
    (get : κ → Except ε ContentItemBlock) (buffer : List Nat)
    (s : String) (cid : κ) (cstr : String)
    (hlen : 4 ≤ buffer.length)
    (him : lib.isImage (buffer.take 4) = false)
    (hutf : utf8Decode buffer = some s)
    (hadd : add { content := .Text { string := s } { size_bytes := buffer.length },
                  size_bytes := buffer.length } = .ok cid)
    (hparse : parseCid cstr = some cid)
    (hget : get cid
      = .ok { content := .Text { string := s } { size_bytes := buffer.length },
              size_bytes := buffer.length }) :
    classify lib buffer
        = .block { content := .Text { string := s } { size_bytes := buffer.length },
                   size_bytes := buffer.length } ∧
      store_file lib add buffer = .ok (some cid) ∧
      load_file parseCid get cstr
        = .ok (.Text { string := s } { size_bytes := buffer.length }) := by
  have h4 : ¬ buffer.length < 4 := by omega
  have hcl : classify lib buffer
      = .block { content := .Text { string := s } { size_bytes := buffer.length },
                 size_bytes := buffer.length } := by
    simp [classify, h4, him, hutf]
  refine ⟨hcl, ?_, ?_⟩
  · simp [store_file, hcl, hadd]
  · simp [load_file, hparse, hget]

/-- C7 witness: the five-byte file `"howdy"` is stored as
`Text { string := "howdy" }` with `size_bytes = 5`, and loading the
identifier returns that item. -/
theorem text_block_construction_witness :
    classify textLib howdyBytes = .block howdyBlock ∧
      store_file (ε := Unit) (κ := Unit) textLib (fun _ => Except.ok ())
        howdyBytes = .ok (some ()) ∧
      load_file (ε := Unit) (fun _ => some ()) (fun _ => Except.ok howdyBlock)
        "cid" = .ok (.Text { string := "howdy" } { size_bytes := 5 }) :=
  text_block_construction textLib (fun _ => Except.ok ()) (fun _ => some ())
    (fun _ => Except.ok howdyBlock) howdyBytes "howdy" () "cid"
    (by decide) (by decide) (by decide) rfl rfl rfl

/-- C1: when `store_file` returns an identifier, loading the
identifier's textual encoding returns exactly the `ContentItem` of the
block `store_file` classified from the original buffer — assuming the
store client's `get` returns the block previously passed to `add`, and
that the identifier's encoding parses back to itself. -/
theorem store_load_round_trip {ε κ : Type} (lib : ImageLib)
    (add : ContentItemBlock → Except ε κ)
    (get : κ → Except ε ContentItemBlock) (parseCid : String → Option κ)
    (enc : κ → String) (buffer : List Nat) (cid : κ)
    (hstore : store_file lib add buffer = .ok (some cid))
    (hget : ∀ b c, add b = .ok c → get c = .ok b)
    (hparse : parseCid (enc cid) = some cid) :
    ∃ blk, classify lib buffer = .block blk ∧
      load_file parseCid get (enc cid) = .ok blk.content := by
  cases hcl : classify lib buffer with
  | panicked r => simp [store_file, hcl] at hstore
  | skip => simp [store_file, hcl] at hstore
  | block blk =>
    cases hadd : add blk with
    | error e => simp [store_file, hcl, hadd] at hstore
    | ok c =>
      simp only [store_file, hcl, hadd, StoreOutcome.ok.injEq,
        Option.some.injEq] at hstore
      subst hstore
      exact ⟨blk, rfl, by simp [load_file, hparse, hget blk c hadd]⟩

/-- C1 witness: the `"howdy"` file, against a store client whose
identifiers are the blocks themselves, round-trips to the stored
item. -/
theorem store_load_round_trip_witness :
    classify textLib howdyBytes = .block howdyBlock ∧
      load_file (ε := Unit)
        (fun t => if t = "cid" then some howdyBlock else none)
        (fun b => Except.ok b) "cid" = .ok howdyBlock.content := by
  obtain ⟨blk, h1, h2⟩ :=
    store_load_round_trip (ε := Unit) textLib (fun b => Except.ok b)
      (fun b => Except.ok b)
      (fun t => if t = "cid" then some howdyBlock else none)
      (fun _ => "cid") howdyBytes howdyBlock (by decide)
      (fun b c h => by cases h; rfl) (by decide)
  have hb : ClassifyResult.block blk = ClassifyResult.block howdyBlock := by
    rw [← h1]; decide
  injection hb with hb2
  subst hb2
  exact ⟨h1, h2⟩

/-- C8: under a content-addressed store client — `add`'s returned
identifier is a function of block content alone, independent of client
state — two `store_file` calls on byte-identical content produce the
same outcome, in particular the same identifier. -/
theorem identifier_stability {ε κ σ : Type} (lib : ImageLib)
    (addS : σ → ContentItemBlock → Except ε κ × σ) (buffer : List Nat)
    (s1 s2 : σ)
    (hca : ∀ t t' b, (addS t b).1 = (addS t' b).1) :
    (store_fileS lib addS buffer s1).1
      = (store_fileS lib addS buffer s2).1 := by
  unfold store_fileS
  cases classify lib buffer with
  | panicked r => rfl
  | skip => rfl
  | block b =>
    dsimp only
    rw [hca s1 s2 b]

/-- C8 witness: storing `"howdy"` twice in sequence — the second call
starting from the client state the first call left behind — returns the
same identifier. -/
theorem identifier_stability_witness :
    (store_fileS textLib counterAdd howdyBytes 0).1
      = (store_fileS textLib counterAdd howdyBytes
          ((store_fileS textLib counterAdd howdyBytes 0).2)).1 :=
  identifier_stability textLib counterAdd howdyBytes 0
    ((store_fileS textLib counterAdd howdyBytes 0).2) (fun _ _ _ => rfl)

/-- C9: building a `Relation(Is)` node whose parent is an
already-constructed `Originator` node leaves both nodes' `value`,
`category` and `parent` fields as supplied, and the child's parent
reference is exactly the supplied parent; construction is the only
operation on `MetadataItem`, so nodes are never mutated. -/
theorem metadata_tree_construction (v0 v1 : String) :
    let parent : MetadataItem := .mk none v0 .Originator
    let child : MetadataItem := .mk (some parent) v1 (.Relation .Is)
    child.parent = some parent ∧ child.value = v1 ∧
      child.category = .Relation .Is ∧ parent.parent = none ∧
      parent.value = v0 ∧ parent.category = .Originator := by
  exact ⟨rfl, rfl, rfl, rfl, rfl, rfl⟩

end Fzr
